import Mathlib

/-!
Verification of `source/winAPI/secureDesktop.py` (NVDA secure-desktop
transition core).

The module consists of:
* `_isSecureDesktop`: returns `_getDesktopName() == "Winlogon"`.
* `_handleSecureDesktopChange`: clears the held-modifier set, announces
  "Secure Desktop" at `SpeechPriority.NOW`, constructs a fresh
  `_SecureDesktopNVDAObject` (with `processID = None`), installs it as the
  focus object (whose `event_gainFocus` cancels speech and sets
  `sleepMode = SLEEP_FULL`), and finally notifies
  `post_secureDesktopStateChange` with `isSecureDesktop = True`.

The embedding is an effect-trace semantics: each primitive interaction with
a collaborator subsystem is recorded as an `Event`, and the mutable
process-wide state (held modifiers, current focus object) is threaded
explicitly through a `World` record.
-/

/-- Speech scheduling priorities of `speech.priorities.SpeechPriority`;
`NOW` is the highest (interrupt) priority. -/
inductive SpeechPriority
  | NORMAL
  | NEXT
  | NOW
deriving DecidableEq, Repr

/-- Sleep-mode values of an NVDA object. Modelled from the spec:
`NVDAObjects.NVDAObject` is not under `src/`; the spec's Sleep-Mode State
has `normal` (awake) and `full-dormant` values, the latter written
`SLEEP_FULL` in the source. -/
inductive SleepMode
  | awake
  | full
deriving DecidableEq, Repr

/-- The `SLEEP_FULL` constant referenced by `event_gainFocus`. -/
def SLEEP_FULL : SleepMode := SleepMode.full

/-- Modifier keys recorded in `keyboardHandler.currentModifiers`. -/
inductive Modifier
  | shift
  | ctrl
  | alt
  | win
deriving DecidableEq, Repr

/-- Primitive observable interactions with the collaborator subsystems,
recorded in program order. -/
inductive Event
  | probeCall
  | clearModifiers
  | uiMessage (text : String) (priority : SpeechPriority)
  | setFocus (objId : Nat)
  | cancelSpeech
  | setSleepMode (objId : Nat) (m : SleepMode)
  | notify (isSecureDesktop : Bool)
deriving DecidableEq, Repr

/-- `true` exactly on `uiMessage` events. -/
def Event.isUiMessage : Event → Bool
  | .uiMessage _ _ => true
  | _ => false

/-- `true` exactly on `notify` events. -/
def Event.isNotify : Event → Bool
  | .notify _ => true
  | _ => false

/-- `true` exactly on `setFocus` events. -/
def Event.isSetFocus : Event → Bool
  | .setFocus _ => true
  | _ => false

/-- The state carried by an NVDA object that this module touches:
`objId` is the identity of the instance (fresh per construction),
`processID` the owning-process identifier, `sleepMode` its sleep state. -/
structure NVDAObjectState where
  objId : Nat
  processID : Option Nat
  sleepMode : SleepMode
deriving DecidableEq, Repr

/-- Construction of `_SecureDesktopNVDAObject`: the class body sets
`processID = None` ("must be implemented to instantiate"), and a fresh
instance starts out not asleep. -/
def mkSecureDesktopNVDAObject (objId : Nat) : NVDAObjectState :=
  { objId := objId, processID := none, sleepMode := SleepMode.awake }

/-- `_SecureDesktopNVDAObject.event_gainFocus`: cancel speech, then set
`self.sleepMode = self.SLEEP_FULL`.  Returns the updated instance together
with the trace of primitive operations in execution order. -/
def event_gainFocus (self : NVDAObjectState) : NVDAObjectState × List Event :=
  ({ self with sleepMode := SLEEP_FULL },
    [Event.cancelSpeech, Event.setSleepMode self.objId SLEEP_FULL])

/-- Process-wide mutable state visible to this module:
the held-modifier set, the current focus object, and a freshness counter
supplying identities for newly constructed objects. -/
structure World where
  modifiers : List Modifier
  focus : Option NVDAObjectState
  nextId : Nat
deriving DecidableEq, Repr

/-- A `World` is well formed when every already-existing focused object has
an identity below the freshness counter. -/
def World.fresh (w : World) : Prop :=
  ∀ f, w.focus = some f → f.objId < w.nextId

/-- The desktop-name probe `systemUtils._getDesktopName` is an external
collaborator; the predicate `_isSecureDesktop` is parameterised by the
string it returns: `return _getDesktopName() == "Winlogon"`. -/
def _isSecureDesktop (desktopName : String) : Bool :=
  desktopName == "Winlogon"

/-- Error raised by the probe when the OS fails to report a desktop name. -/
inductive EnvironmentQueryError
  | queryFailed
deriving DecidableEq, Repr

/-- `_isSecureDesktop` with a fallible probe: the Python body contains no
try/except, so a probe exception propagates to the caller unchanged. -/
def _isSecureDesktopE (probe : Except EnvironmentQueryError String) :
    Except EnvironmentQueryError Bool := do
  let n ← probe
  pure (n == "Winlogon")

/-- `_isSecureDesktop` with its interactions made explicit: it receives the
process-wide state, performs exactly one probe call, and returns the
comparison result, the (untouched) state, and its effect trace. -/
def _isSecureDesktopRun (w : World) (desktopName : String) :
    Bool × World × List Event :=
  ((desktopName == "Winlogon"), w, [Event.probeCall])

/-- Modelled from the spec: `api.setFocusObject` (not under `src/`)
replaces the single global current-focus reference, and the gained-focus
event fires synchronously once the object is installed as the Focus Object
(§4.3 step 3 / §4.4 of the spec). -/
def setFocusObject (w : World) (obj : NVDAObjectState) : World × List Event :=
  let (obj2, evGain) := event_gainFocus obj
  ({ w with focus := some obj2 }, Event.setFocus obj.objId :: evGain)

/-- `_handleSecureDesktopChange`, with an explicit flag modelling whether
constructing/installing the focus object raises (the Python code is
straight-line; an exception there aborts the remainder, skipping the
notify).  Returns the final state, the trace, and whether an exception
propagated. -/
def _handleSecureDesktopChangeE (focusRaises : Bool) (w : World) :
    World × List Event × Bool :=
  let w1 : World := { w with modifiers := [] }
  let pre : List Event :=
    [Event.clearModifiers,
     Event.uiMessage "Secure Desktop" SpeechPriority.NOW]
  let obj := mkSecureDesktopNVDAObject w1.nextId
  let w2 : World := { w1 with nextId := w1.nextId + 1 }
  if focusRaises then
    (w2, pre, true)
  else
    let (w3, evFocus) := setFocusObject w2 obj
    (w3, pre ++ evFocus ++ [Event.notify true], false)

/-- The normal (non-raising) run of `_handleSecureDesktopChange`. -/
def _handleSecureDesktopChange (w : World) : World × List Event :=
  let r := _handleSecureDesktopChangeE false w
  (r.1, r.2.1)

/-! ## Claim theorems -/

/-- Claim C1: `_isSecureDesktop` returns `true` iff the probed desktop name
equals exactly `"Winlogon"`; the empty string, a case-variant such as
`"winlogon"`, and an unknown name such as `"Default"` all yield `false`. -/
theorem isSecureDesktop_iff_winlogon :
    (∀ s : String, _isSecureDesktop s = true ↔ s = "Winlogon") ∧
    _isSecureDesktop "" = false ∧
    _isSecureDesktop "winlogon" = false ∧
    _isSecureDesktop "Default" = false ∧
    _isSecureDesktop "Winlogon" = true := by
  refine ⟨fun s => ?_, by decide, by decide, by decide, by decide⟩
  simp [_isSecureDesktop]

/-- Claim C2: after `_handleSecureDesktopChange` completes, the current
focus object is a `_SecureDesktopNVDAObject` instance constructed fresh
during the invocation (its identity is the pre-call freshness counter,
hence it differs from any previously focused object), and its sleep mode
is `SLEEP_FULL`. -/
theorem handleSecureDesktopChange_installs_fresh_dormant (w : World)
    (h : w.fresh) :
    ∃ obj,
      (_handleSecureDesktopChange w).1.focus = some obj ∧
      obj.objId = w.nextId ∧
      obj.sleepMode = SleepMode.full ∧
      ∀ f, w.focus = some f → f ≠ obj := by
  refine ⟨{ objId := w.nextId, processID := none, sleepMode := SleepMode.full },
    ?_, rfl, rfl, ?_⟩
  · simp [_handleSecureDesktopChange, _handleSecureDesktopChangeE,
      setFocusObject, event_gainFocus, mkSecureDesktopNVDAObject, SLEEP_FULL]
  · intro f hf hcontra
    have hlt := h f hf
    rw [hcontra] at hlt
    exact lt_irrefl _ hlt

/-- Concrete run of `handleSecureDesktopChange_installs_fresh_dormant`:
an object with identity 0 is focused, the counter is 1. -/
def witnessWorld : World :=
  { modifiers := [Modifier.shift, Modifier.ctrl],
    focus := some { objId := 0, processID := some 5, sleepMode := SleepMode.awake },
    nextId := 1 }

/-- Witness for claim C2 at `witnessWorld`. -/
theorem handleSecureDesktopChange_installs_fresh_dormant_witness :
    witnessWorld.fresh ∧
    ∃ obj,
      (_handleSecureDesktopChange witnessWorld).1.focus = some obj ∧
      obj.objId = witnessWorld.nextId ∧
      obj.sleepMode = SleepMode.full ∧
      ∀ f, witnessWorld.focus = some f → f ≠ obj := by
  have hfresh : witnessWorld.fresh := by
    intro f hf
    injection hf with h
    rw [← h]
    decide
  exact ⟨hfresh, handleSecureDesktopChange_installs_fresh_dormant witnessWorld hfresh⟩

/-- Claim C3: every run of `_handleSecureDesktopChange` emits exactly one
`ui.message`, at `SpeechPriority.NOW` (the interrupt priority), and exactly
one observer broadcast, with payload `isSecureDesktop = true`; the
broadcast is the last event, after the focus installation and the sleep
mode assignment already appear in the trace. -/
theorem handleSecureDesktopChange_announce_and_notify_order (w : World) :
    (_handleSecureDesktopChange w).2.countP Event.isUiMessage = 1 ∧
    Event.uiMessage "Secure Desktop" SpeechPriority.NOW ∈ (_handleSecureDesktopChange w).2 ∧
    (_handleSecureDesktopChange w).2.countP Event.isNotify = 1 ∧
    ∃ pre,
      (_handleSecureDesktopChange w).2 = pre ++ [Event.notify true] ∧
      Event.setFocus w.nextId ∈ pre ∧
      Event.setSleepMode w.nextId SleepMode.full ∈ pre := by
  refine ⟨?_, ?_, ?_,
    [Event.clearModifiers,
     Event.uiMessage "Secure Desktop" SpeechPriority.NOW,
     Event.setFocus w.nextId,
     Event.cancelSpeech,
     Event.setSleepMode w.nextId SleepMode.full], ?_, ?_, ?_⟩ <;>
    simp [_handleSecureDesktopChange, _handleSecureDesktopChangeE,
      setFocusObject, event_gainFocus, mkSecureDesktopNVDAObject, SLEEP_FULL,
      Event.isUiMessage, Event.isNotify, List.countP, List.countP.go]

/-- Claim C4: whatever the held-modifier set contained before,
`_handleSecureDesktopChange` leaves it empty, and the clear is the very
first event of the run. -/
theorem handleSecureDesktopChange_clears_modifiers (w : World) :
    (_handleSecureDesktopChange w).1.modifiers = [] ∧
    (_handleSecureDesktopChange w).2.head? = some Event.clearModifiers := by
  constructor <;>
    simp [_handleSecureDesktopChange, _handleSecureDesktopChangeE,
      setFocusObject, event_gainFocus, mkSecureDesktopNVDAObject]

/-- Claim C5: dormancy entry is idempotent. Running `event_gainFocus` a
second time on the same instance (a duplicate focus event) leaves the
instance unchanged, with sleep mode still `SLEEP_FULL`; the embedding is a
total function, so no exception is possible. -/
theorem event_gainFocus_idempotent (o : NVDAObjectState) :
    (event_gainFocus (event_gainFocus o).1).1 = (event_gainFocus o).1 ∧
    (event_gainFocus (event_gainFocus o).1).1.sleepMode = SleepMode.full := by
  constructor <;> simp [event_gainFocus, SLEEP_FULL]

/-- Claim C6: inside `event_gainFocus` the speech cancellation is the first
primitive operation and the sleep-mode assignment the second, so the
cancellation strictly precedes the assignment; the resulting instance is
fully dormant. -/
theorem event_gainFocus_cancel_precedes_sleep (o : NVDAObjectState) :
    (event_gainFocus o).2 =
      [Event.cancelSpeech, Event.setSleepMode o.objId SleepMode.full] ∧
    (event_gainFocus o).1.sleepMode = SleepMode.full := by
  constructor <;> simp [event_gainFocus, SLEEP_FULL]

/-- Claim C7: every `_SecureDesktopNVDAObject` carries `processID = None`;
in particular the instance installed as focus by the transition handler
has no owning-process identifier. -/
theorem secureDesktopObject_no_processID (w : World) :
    (∀ id, (mkSecureDesktopNVDAObject id).processID = none) ∧
    ∃ obj,
      (_handleSecureDesktopChange w).1.focus = some obj ∧
      obj.processID = none := by
  refine ⟨fun id => rfl,
    { objId := w.nextId, processID := none, sleepMode := SleepMode.full }, ?_, rfl⟩
  simp [_handleSecureDesktopChange, _handleSecureDesktopChangeE,
    setFocusObject, event_gainFocus, mkSecureDesktopNVDAObject, SLEEP_FULL]

/-- Claim C8: `_isSecureDesktop` performs exactly one probe call and no
other effect (in particular it never emits a broadcast or focus change, so
it cannot trigger the transition machinery), leaves the process-wide state
untouched, and two invocations seeing the same probed name return the same
boolean. -/
theorem isSecureDesktop_effect_free (w w' : World) (n : String) :
    (_isSecureDesktopRun w n).2.1 = w ∧
    (_isSecureDesktopRun w n).2.2 = [Event.probeCall] ∧
    (_isSecureDesktopRun w n).2.2.countP Event.isNotify = 0 ∧
    (_isSecureDesktopRun w n).2.2.countP Event.isSetFocus = 0 ∧
    (_isSecureDesktopRun w n).1 = (_isSecureDesktopRun w' n).1 := by
  exact ⟨rfl, rfl, rfl, rfl, rfl⟩

/-- Claim C9: when the probe fails with an `EnvironmentQueryError`, the
predicate propagates exactly that error and produces no boolean. -/
theorem isSecureDesktopE_propagates_error (e : EnvironmentQueryError) :
    _isSecureDesktopE (Except.error e) = Except.error e ∧
    (_isSecureDesktopE (Except.error e)).isOk = false := by
  constructor <;> rfl

/-- Witness for claim C9 at the concrete error `queryFailed`. -/
theorem isSecureDesktopE_propagates_error_witness :
    _isSecureDesktopE (Except.error EnvironmentQueryError.queryFailed) =
      Except.error EnvironmentQueryError.queryFailed ∧
    (_isSecureDesktopE (Except.error EnvironmentQueryError.queryFailed)).isOk = false :=
  isSecureDesktopE_propagates_error EnvironmentQueryError.queryFailed

/-- Claim C10: if constructing/installing the focus object raises, the
handler ends with the exception propagating and its trace contains no
observer broadcast, even though the modifier clear and the announcement
have already taken effect. -/
theorem handleSecureDesktopChangeE_raise_no_notify (w : World) :
    (_handleSecureDesktopChangeE true w).2.2 = true ∧
    (_handleSecureDesktopChangeE true w).2.1.countP Event.isNotify = 0 ∧
    (_handleSecureDesktopChangeE true w).1.modifiers = [] ∧
    Event.uiMessage "Secure Desktop" SpeechPriority.NOW ∈
      (_handleSecureDesktopChangeE true w).2.1 := by
  refine ⟨rfl, ?_, rfl, ?_⟩ <;>
    simp [_handleSecureDesktopChangeE, Event.isNotify, List.countP, List.countP.go]
